import Mathlib

/-!
Shallow embedding of the vote-ledger backend of the UKN repository
(server: `src/unnamed/part_000`, an Express/Mongoose application; client glue:
`src/script.js`, `src/api-service.js`).

Modelling conventions:
* MongoDB documents become Lean structures; the two collections
  (`Profile`, `Vote`) become lists held in a `ServerState`, in insertion order.
* Mongoose `Document.save()` persists only the modified paths of the fetched
  document (a `$set` of the changed fields); we model each save as a field-wise
  update applied to the stored profile with the matching id.
* JS timestamps (`Date.now()`, milliseconds) are `Nat`.
* `Math.round((count / total) * 100)` is modelled exactly as round-half-up on
  the rational `100 * count / total` (for the integer ranges involved the JS
  double computation agrees with the rational value at the rounding step).
* Fallible handlers return an explicit result inductive alongside the new
  state; a thrown JS exception caught by the handler's `catch` (HTTP 500) is
  the `serverError` result.
-/

namespace UKN

/-- A profile document (`profileSchema` in the server file): the vote counters
and the `votesHistory` array of `(voterId, timestamp)` entries pushed on each
battle win. Presentation-only fields (username, bio, image, …) are omitted;
they are never read by the vote or leaderboard logic. -/
structure Profile where
  id : Nat
  votes : Nat
  score : Nat
  battleWins : Nat
  battleLosses : Nat
  chadVotes : Nat
  jeetVotes : Nat
  votesHistory : List (Nat × Nat)
deriving DecidableEq, Repr

/-- A battle vote document (`voteSchema`): voter, winner, loser, timestamp. -/
structure VoteRec where
  voterId : Nat
  winnerId : Nat
  loserId : Nat
  timestamp : Nat
deriving DecidableEq, Repr

/-- The persistent state: the Profiles and Votes collections, each in
insertion order. -/
structure ServerState where
  profiles : List Profile
  votes : List VoteRec
deriving DecidableEq, Repr

/-- `Profile.findById`: first stored profile with the given id. -/
def findById (i : Nat) (ps : List Profile) : Option Profile :=
  ps.find? (fun p => p.id == i)

/-- Persist a field-wise update on every stored profile with the given id
(a Mongoose `save()` of a fetched document writes its modified paths). -/
def updateProfile (i : Nat) (f : Profile → Profile) (ps : List Profile) :
    List Profile :=
  ps.map (fun p => if p.id == i then f p else p)

/-- The duplicate-vote query of `POST /api/votes/battle`: a vote by the same
voter on the same pair in either order with `timestamp >= now - 60000`. -/
def dedupHit (voterId winnerId loserId now : Nat) (vs : List VoteRec) : Bool :=
  vs.any fun v =>
    v.voterId == voterId &&
    ((v.winnerId == winnerId && v.loserId == loserId) ||
     (v.winnerId == loserId && v.loserId == winnerId)) &&
    decide (now - 60000 ≤ v.timestamp)

/-- Result of `POST /api/votes/battle`. `ok` carries the JSON payload's
numeric fields: winner id, votes, score; loser id, votes, score (the values of
the in-memory documents at response time). `duplicate` is the 400
"Already voted for this battle" response; `serverError` is the catch-all 500. -/
inductive BattleResult where
  | duplicate
  | serverError
  | ok (winnerId winnerVotes winnerScore loserId loserVotes loserScore : Nat)
deriving DecidableEq, Repr

/-- Whether a battle response is the success (HTTP 200) response. -/
def BattleResult.isOk : BattleResult → Bool
  | .ok .. => true
  | _ => false

/-- All numeric values appearing in a battle response body. -/
def BattleResult.numFields : BattleResult → List Nat
  | .ok a b c d e f => [a, b, c, d, e, f]
  | _ => []

/-- The modified paths of the fetched winner document at `winner.save()`:
`votes`, `score`, `battleWins` each set to the fetched value plus one, and the
`(voterId, now)` entry pushed onto `votesHistory`. -/
def winnerSaveFields (w : Profile) (voterId now : Nat) : Profile → Profile :=
  fun p =>
    { p with
      votes := w.votes + 1
      score := w.score + 1
      battleWins := w.battleWins + 1
      votesHistory := w.votesHistory ++ [(voterId, now)] }

/-- The modified path of the fetched loser document at `loser.save()`:
`battleLosses` set to the fetched value plus one. -/
def loserSaveFields (l : Profile) : Profile → Profile :=
  fun p => { p with battleLosses := l.battleLosses + 1 }

/-- The tail of the battle-vote handler after the vote record has been saved:
given the two fetched documents, apply both saves and build the response.  If
either lookup came back `null` the guarded update block is skipped and the
response construction dereferences the `null` document, so the handler's
`catch` answers 500 with the state as it stood (vote record already saved). -/
def battleFinish (voterId now winnerId loserId : Nat)
    (w? l? : Option Profile) (s : ServerState) : BattleResult × ServerState :=
  match w?, l? with
  | some w, some l =>
      (.ok winnerId (w.votes + 1) (w.score + 1) loserId l.votes l.score,
       { s with
         profiles :=
           updateProfile loserId (loserSaveFields l)
             (updateProfile winnerId (winnerSaveFields w voterId now)
               s.profiles) })
  | _, _ => (.serverError, s)

/-- `POST /api/votes/battle`: duplicate check against the Votes collection,
then save the new vote record, then fetch both profiles and finish.  The
handler performs no winnerId ≠ loserId check and saves the vote record before
looking the profiles up. -/
def recordBattleVote (voterId winnerId loserId now : Nat) (s : ServerState) :
    BattleResult × ServerState :=
  if dedupHit voterId winnerId loserId now s.votes then
    (.duplicate, s)
  else
    let s1 : ServerState :=
      { s with votes := s.votes ++ [⟨voterId, winnerId, loserId, now⟩] }
    battleFinish voterId now winnerId loserId
      (findById winnerId s1.profiles) (findById loserId s1.profiles) s1

/-- Exact value of `Math.round((num / den) * 100)` for `den > 0`:
round-half-up of the rational `100 * num / den`. -/
def jsRound100 (num den : Nat) : Nat :=
  (200 * num + den) / (2 * den)

/-- The percentage block of `POST /api/votes/profile/:id`: 50/50 when the
total is zero, otherwise round each side and, when the rounded values miss
100, overwrite the side with the larger raw count (chad on ties) by
100 minus the other side. -/
def percentages (c j : Nat) : Nat × Nat :=
  let total := c + j
  if total = 0 then (50, 50)
  else
    let cp := jsRound100 c total
    let jp := jsRound100 j total
    if cp + jp = 100 then (cp, jp)
    else if j ≤ c then (100 - jp, jp)
    else (cp, 100 - cp)

/-- Result of `POST /api/votes/profile/:id`: the 404 "Profile not found"
response, or the success payload `{chadVotes, jeetVotes, chadPercentage,
jeetPercentage}`. -/
inductive ProfileVoteResult where
  | notFound
  | ok (chadVotes jeetVotes chadPercentage jeetPercentage : Nat)
deriving DecidableEq, Repr

/-- `POST /api/votes/profile/:id`: fetch the profile (404 when absent),
increment `chadVotes` when `voteType === 'chad'`, `jeetVotes` when
`voteType === 'jeet'`, neither otherwise (there is no else-error branch),
save, and answer with the counts and percentages. -/
def recordProfileVote (profileId : Nat) (voteType : String) (s : ServerState) :
    ProfileVoteResult × ServerState :=
  match findById profileId s.profiles with
  | none => (.notFound, s)
  | some p =>
    let c := if voteType = "chad" then p.chadVotes + 1 else p.chadVotes
    let j := if voteType = "jeet" then p.jeetVotes + 1 else p.jeetVotes
    let ps :=
      updateProfile profileId
        (fun q => { q with chadVotes := c, jeetVotes := j }) s.profiles
    let pct := percentages c j
    (.ok c j pct.1 pct.2, { s with profiles := ps })

/-- Run a sequence of profile-vote calls `(profileId, voteType)` in order. -/
def runProfileVotes (calls : List (Nat × String)) (s : ServerState) :
    ServerState :=
  calls.foldl (fun st c => (recordProfileVote c.1 c.2 st).2) s

/-- The leaderboard time filter: window size in milliseconds per period
string; any other period (including 'all') applies no filter. -/
def windowMs : String → Option Nat
  | "day" => some 86400000
  | "week" => some 604800000
  | "month" => some 2592000000
  | _ => none

/-- The `GET /api/leaderboard` date filter: for day/week/month the profile
must have some `votesHistory` entry with `timestamp >= now - window`; for any
other period every profile matches. -/
def qualifies (period : String) (now : Nat) (p : Profile) : Bool :=
  match windowMs period with
  | some w => p.votesHistory.any (fun e => decide (now - w ≤ e.2))
  | none => true

/-- The `sort({votes: -1, score: -1})` order: votes descending, then score
descending.  Documents equal on both keys are left in stored order (the query
specifies no further key; the model realises the stable order). -/
def lbLE (a b : Profile) : Bool :=
  decide (b.votes < a.votes) ||
    (a.votes == b.votes && decide (b.score ≤ a.score))

/-- Stable ordered insertion for the leaderboard order. -/
def insertLB (p : Profile) : List Profile → List Profile
  | [] => [p]
  | q :: t => if lbLE p q then p :: q :: t else q :: insertLB p t

/-- Stable sort by the leaderboard order (insertion sort: equal documents
keep their stored order). -/
def sortLB (l : List Profile) : List Profile :=
  l.foldr insertLB []

/-- `GET /api/leaderboard`: filter by the period window, sort by
`(votes desc, score desc)` (stable), truncate to `limit`. -/
def getLeaderboard (period : String) (limit now : Nat) (s : ServerState) :
    List Profile :=
  (sortLB (s.profiles.filter (qualifies period now))).take limit

/-- One admissible outcome of the random-profile query
`Profile.aggregate([{ $sample: { size } }])`.  Modelled from MongoDB's
documented `$sample` semantics (the operator is the database's, not this
repository's): the result has `min size count` documents, each drawn from the
collection, and the same document may appear more than once in the result. -/
def sampleAdmissible (ps : List Profile) (size : Nat) (out : List Profile) :
    Prop :=
  out.length = min size ps.length ∧ ∀ p, p ∈ out → p ∈ ps

/-- The pair selection of `loadNewProfiles` in `src/script.js`: the endpoint
returns the sample unchanged and the client takes elements 0 and 1, bailing
out when fewer than two arrive.  No distinctness check is performed. -/
def loadNewProfilesPair (profilesResp : List Profile) :
    Option (Profile × Profile) :=
  match profilesResp with
  | a :: b :: _ => some (a, b)
  | _ => none

/-- The lost-update interleaving of two battle-vote requests on the same pair:
request 1 runs its duplicate check and vote save, request 2 likewise, then
both fetch the profile documents before either saves, then both saves land in
order.  Each step is one awaited storage operation of the handler, so this is
a legal schedule of two concurrent requests. -/
def battleRace (v1 v2 winnerId loserId t1 t2 : Nat) (s : ServerState) :
    (BattleResult × BattleResult) × ServerState :=
  if dedupHit v1 winnerId loserId t1 s.votes then
    let r2 := recordBattleVote v2 winnerId loserId t2 s
    ((.duplicate, r2.1), r2.2)
  else
    let sV1 : ServerState :=
      { s with votes := s.votes ++ [⟨v1, winnerId, loserId, t1⟩] }
    if dedupHit v2 winnerId loserId t2 sV1.votes then
      let r1 := battleFinish v1 t1 winnerId loserId
        (findById winnerId sV1.profiles) (findById loserId sV1.profiles) sV1
      ((r1.1, .duplicate), r1.2)
    else
      let sV2 : ServerState :=
        { sV1 with votes := sV1.votes ++ [⟨v2, winnerId, loserId, t2⟩] }
      let w? := findById winnerId sV2.profiles
      let l? := findById loserId sV2.profiles
      let r1 := battleFinish v1 t1 winnerId loserId w? l? sV2
      let r2 := battleFinish v2 t2 winnerId loserId w? l? r1.2
      ((r1.1, r2.1), r2.2)

/-! ## Helper lemmas -/

/-- A profile produced by `findById i` carries id `i`. -/
lemma findById_id {i : Nat} {ps : List Profile} {p : Profile}
    (h : findById i ps = some p) : p.id = i := by
  have := List.find?_some h
  simpa using this

/-- Looking a profile up after a field-wise save: the stored document with the
matching id is the updated one, all others are untouched (the update preserves
ids). -/
lemma findById_updateProfile (i jd : Nat) (f : Profile → Profile)
    (hf : ∀ p, (f p).id = p.id) (ps : List Profile) :
    findById i (updateProfile jd f ps) =
      (findById i ps).map (fun p => if p.id == jd then f p else p) := by
  induction ps with
  | nil => rfl
  | cons p t ih =>
    have hid : (if p.id == jd then f p else p).id = p.id := by
      split
      · exact hf p
      · rfl
    by_cases c1 : p.id = i
    · have h1 : ((if p.id == jd then f p else p).id == i) = true := by
        rw [hid]
        exact beq_iff_eq.mpr c1
      have h2 : (p.id == i) = true := beq_iff_eq.mpr c1
      have e1 : List.find? (fun q => q.id == i)
          ((if p.id == jd then f p else p) ::
            List.map (fun q => if q.id == jd then f q else q) t)
          = some (if p.id == jd then f p else p) :=
        List.find?_cons_of_pos (p := fun q : Profile => q.id == i) _ h1
      have e2 : List.find? (fun q => q.id == i) (p :: t) = some p :=
        List.find?_cons_of_pos (p := fun q : Profile => q.id == i) _ h2
      simp only [updateProfile, List.map_cons, findById, e1, e2]
      rfl
    · have h1 : ¬ ((if p.id == jd then f p else p).id == i) = true := by
        rw [hid]
        simpa using c1
      have h2 : ¬ (p.id == i) = true := by simpa using c1
      have e1 : List.find? (fun q => q.id == i)
          ((if p.id == jd then f p else p) ::
            List.map (fun q => if q.id == jd then f q else q) t)
          = List.find? (fun q => q.id == i)
              (List.map (fun q => if q.id == jd then f q else q) t) :=
        List.find?_cons_of_neg (p := fun q : Profile => q.id == i) _ h1
      have e2 : List.find? (fun q => q.id == i) (p :: t) =
          List.find? (fun q => q.id == i) t :=
        List.find?_cons_of_neg (p := fun q : Profile => q.id == i) _ h2
      simp only [updateProfile, List.map_cons, findById] at ih ⊢
      rw [e1, e2]
      exact ih

/-- The rounded percentage of a part of a positive total is at most 100. -/
lemma jsRound100_le_100 {j t : Nat} (ht : 0 < t) (hj : j ≤ t) :
    jsRound100 j t ≤ 100 := by
  have h2t : 0 < 2 * t := by omega
  have hlt : (200 * j + t) / (2 * t) < 101 := by
    rw [Nat.div_lt_iff_lt_mul h2t]
    omega
  unfold jsRound100
  omega

/-- The two percentages produced by the correction block always sum to 100. -/
lemma percentages_sum (c j : Nat) :
    (percentages c j).1 + (percentages c j).2 = 100 := by
  unfold percentages
  by_cases h0 : c + j = 0
  · simp [h0]
  · have ht : 0 < c + j := Nat.pos_of_ne_zero h0
    have hcp : jsRound100 c (c + j) ≤ 100 := jsRound100_le_100 ht (by omega)
    have hjp : jsRound100 j (c + j) ≤ 100 := jsRound100_le_100 ht (by omega)
    simp only [h0, if_false]
    split
    · simpa using by assumption
    · split
      · simp
        omega
      · simp
        omega

/-- The branch structure of the percentage block, as a statement about
`percentages`. -/
lemma percentages_cases (c j : Nat) :
    (c + j = 0 → percentages c j = (50, 50)) ∧
    (0 < c + j →
      (jsRound100 c (c + j) + jsRound100 j (c + j) = 100 →
        percentages c j = (jsRound100 c (c + j), jsRound100 j (c + j))) ∧
      (jsRound100 c (c + j) + jsRound100 j (c + j) ≠ 100 →
        (j ≤ c →
          percentages c j = (100 - jsRound100 j (c + j), jsRound100 j (c + j))) ∧
        (c < j →
          percentages c j = (jsRound100 c (c + j), 100 - jsRound100 c (c + j))))) := by
  unfold percentages
  by_cases h0 : c + j = 0
  · simp [h0]
  · refine ⟨fun h => absurd h h0, fun _ => ⟨fun hsum => by simp [h0, hsum], fun hsum => ⟨?_, ?_⟩⟩⟩
    · intro hjc
      simp [h0, hsum, hjc]
    · intro hcj
      have : ¬ j ≤ c := by omega
      simp [h0, hsum, this]

/-- Specialisation of `findById_updateProfile` to the counter save of the
profile-vote handler. -/
lemma findById_updateCounters (i jd c2 j2 : Nat) (ps : List Profile) :
    findById i (updateProfile jd
        (fun q => { q with chadVotes := c2, jeetVotes := j2 }) ps) =
      (findById i ps).map
        (fun p =>
          if p.id == jd then { p with chadVotes := c2, jeetVotes := j2 }
          else p) :=
  findById_updateProfile i jd
    (fun q => { q with chadVotes := c2, jeetVotes := j2 }) (fun _ => rfl) ps

/-- One profile-vote call never decreases the chad or jeet counter of any
stored profile. -/
lemma profileVote_step_mono (pid2 : Nat) (vt : String) (s : ServerState)
    (pid : Nat) (p : Profile) (hp : findById pid s.profiles = some p) :
    ∃ q, findById pid ((recordProfileVote pid2 vt s).2).profiles = some q ∧
      p.chadVotes ≤ q.chadVotes ∧ p.jeetVotes ≤ q.jeetVotes := by
  cases h2 : findById pid2 s.profiles with
  | none => exact ⟨p, by simp [recordProfileVote, h2, hp], le_refl _, le_refl _⟩
  | some p2 =>
    simp only [recordProfileVote, h2]
    rw [findById_updateCounters, hp]
    by_cases hpp : p.id = pid2
    · have hpid : pid = pid2 := (findById_id hp) ▸ hpp
      rw [← hpid] at h2
      rw [hp] at h2
      obtain rfl : p = p2 := by injection h2
      refine ⟨{ p with
          chadVotes := if vt = "chad" then p.chadVotes + 1 else p.chadVotes,
          jeetVotes := if vt = "jeet" then p.jeetVotes + 1 else p.jeetVotes },
        by simp [hpp], ?_, ?_⟩ <;> dsimp only [] <;> split <;> omega
    · exact ⟨p, by simp [hpp], le_refl _, le_refl _⟩

/-- Across any sequence of profile-vote calls the chad and jeet counters of
any stored profile never decrease. -/
lemma runProfileVotes_mono (calls : List (Nat × String)) (s : ServerState)
    (pid : Nat) (p : Profile) (hp : findById pid s.profiles = some p) :
    ∃ q, findById pid (runProfileVotes calls s).profiles = some q ∧
      p.chadVotes ≤ q.chadVotes ∧ p.jeetVotes ≤ q.jeetVotes := by
  induction calls generalizing s p with
  | nil => exact ⟨p, hp, le_refl _, le_refl _⟩
  | cons hd tl ih =>
    obtain ⟨q1, hq1, hc1, hj1⟩ := profileVote_step_mono hd.1 hd.2 s pid p hp
    obtain ⟨q, hq, hc, hj⟩ := ih _ _ hq1
    exact ⟨q, by simpa [runProfileVotes] using hq,
      le_trans hc1 hc, le_trans hj1 hj⟩

/-- The tail of the battle handler never modifies the Votes collection. -/
lemma battleFinish_votes (voterId now wi li : Nat) (w? l? : Option Profile)
    (s : ServerState) :
    ((battleFinish voterId now wi li w? l? s).2).votes = s.votes := by
  cases w? <;> cases l? <;> rfl

/-- A battle call that answers 200 passed the duplicate check. -/
lemma recordBattleVote_isOk_no_dup (V A B t : Nat) (s : ServerState)
    (h : ((recordBattleVote V A B t s).1).isOk = true) :
    dedupHit V A B t s.votes = false := by
  cases hd : dedupHit V A B t s.votes with
  | false => rfl
  | true => simp [recordBattleVote, hd, BattleResult.isOk] at h

/-- A battle call that passes the duplicate check appends exactly its vote
record to the Votes collection, whatever happens afterwards. -/
lemma recordBattleVote_votes_append (V A B t : Nat) (s : ServerState)
    (hd : dedupHit V A B t s.votes = false) :
    ((recordBattleVote V A B t s).2).votes = s.votes ++ [⟨V, A, B, t⟩] := by
  simp only [recordBattleVote, hd, Bool.false_eq_true, if_false]
  exact battleFinish_votes V t A B _ _ _

/-- The duplicate query answers true as soon as some stored record matches the
voter, the unordered pair, and the window. -/
lemma dedupHit_of_mem (V A B t' : Nat) (vs : List VoteRec) (v : VoteRec)
    (hv : v ∈ vs) (hvoter : v.voterId = V)
    (hpair : (v.winnerId = A ∧ v.loserId = B) ∨
             (v.winnerId = B ∧ v.loserId = A))
    (ht : t' - 60000 ≤ v.timestamp) :
    dedupHit V A B t' vs = true := by
  unfold dedupHit
  rw [List.any_eq_true]
  refine ⟨v, hv, ?_⟩
  rcases hpair with ⟨h1, h2⟩ | ⟨h1, h2⟩ <;> simp [hvoter, h1, h2, ht]

/-! ## Claim theorems -/

/-- C1: every success response of `POST /api/votes/profile/:id` carries
percentages that sum to exactly 100: when the returned counters total zero
both are 50; otherwise each side is the rounded share `round(100*count/total)`
and, when the two rounded values do not sum to 100, the side with the larger
raw count (chad on ties, i.e. whenever `jeetVotes ≤ chadVotes`) is overwritten
by 100 minus the other side's rounded value. -/
theorem profile_vote_percentages_sum_100 (pid : Nat) (vt : String)
    (s : ServerState) (c j cp jp : Nat)
    (h : (recordProfileVote pid vt s).1 = .ok c j cp jp) :
    cp + jp = 100 ∧
    (c + j = 0 → cp = 50 ∧ jp = 50) ∧
    (0 < c + j →
      (jsRound100 c (c + j) + jsRound100 j (c + j) = 100 →
        cp = jsRound100 c (c + j) ∧ jp = jsRound100 j (c + j)) ∧
      (jsRound100 c (c + j) + jsRound100 j (c + j) ≠ 100 →
        (j ≤ c →
          cp = 100 - jsRound100 j (c + j) ∧ jp = jsRound100 j (c + j)) ∧
        (c < j →
          cp = jsRound100 c (c + j) ∧ jp = 100 - jsRound100 c (c + j)))) := by
  have hpct : cp = (percentages c j).1 ∧ jp = (percentages c j).2 := by
    cases hfind : findById pid s.profiles with
    | none => simp [recordProfileVote, hfind] at h
    | some p =>
      simp only [recordProfileVote, hfind] at h
      obtain ⟨hc, hj, hcp, hjp⟩ := ProfileVoteResult.ok.injEq .. ▸ h
      subst hc hj
      exact ⟨hcp.symm, hjp.symm⟩
  obtain ⟨hcp, hjp⟩ := hpct
  subst hcp hjp
  have hcase := percentages_cases c j
  refine ⟨percentages_sum c j, ?_, ?_⟩
  · intro h0
    rw [hcase.1 h0]
    exact ⟨rfl, rfl⟩
  · intro hpos
    refine ⟨fun hsum => ?_, fun hsum => ⟨fun hjc => ?_, fun hcj => ?_⟩⟩
    · rw [(hcase.2 hpos).1 hsum]
      exact ⟨rfl, rfl⟩
    · rw [((hcase.2 hpos).2 hsum).1 hjc]
      exact ⟨rfl, rfl⟩
    · rw [((hcase.2 hpos).2 hsum).2 hcj]
      exact ⟨rfl, rfl⟩

/-- Witness for C1: a chad vote on a profile with counters 2/5 answers counts
3/5; the raw shares round to 38 and 63 (sum 101), jeet holds the larger raw
count, so chad is overwritten by 100 − 62 … the response is 38/62, summing
to 100. -/
theorem profile_vote_percentages_sum_100_witness :
    (recordProfileVote 1 "chad"
        { profiles := [⟨1, 0, 0, 0, 0, 2, 5, []⟩], votes := [] }).1 =
      .ok 3 5 38 62 ∧ (38 : Nat) + 62 = 100 :=
  ⟨by decide,
   (profile_vote_percentages_sum_100 1 "chad"
      { profiles := [⟨1, 0, 0, 0, 0, 2, 5, []⟩], votes := [] }
      3 5 38 62 (by decide)).1⟩

/-- C7: chad. and jeet counters are natural numbers (hence non-negative) and
never decrease across any sequence of profile-vote calls; moreover an accepted
call with voteType 'chad' increments exactly `chadVotes` by one and one with
'jeet' increments exactly `jeetVotes` by one, both in the response and in the
store. -/
theorem profile_vote_counters_monotone (calls : List (Nat × String))
    (s : ServerState) (pid : Nat) (p : Profile)
    (hp : findById pid s.profiles = some p) :
    (∃ q, findById pid (runProfileVotes calls s).profiles = some q ∧
       p.chadVotes ≤ q.chadVotes ∧ p.jeetVotes ≤ q.jeetVotes) ∧
    ((recordProfileVote pid "chad" s).1 =
       .ok (p.chadVotes + 1) p.jeetVotes
         (percentages (p.chadVotes + 1) p.jeetVotes).1
         (percentages (p.chadVotes + 1) p.jeetVotes).2 ∧
     findById pid ((recordProfileVote pid "chad" s).2).profiles =
       some { p with chadVotes := p.chadVotes + 1 }) ∧
    ((recordProfileVote pid "jeet" s).1 =
       .ok p.chadVotes (p.jeetVotes + 1)
         (percentages p.chadVotes (p.jeetVotes + 1)).1
         (percentages p.chadVotes (p.jeetVotes + 1)).2 ∧
     findById pid ((recordProfileVote pid "jeet" s).2).profiles =
       some { p with jeetVotes := p.jeetVotes + 1 }) := by
  have hid := findById_id hp
  refine ⟨runProfileVotes_mono calls s pid p hp, ⟨?_, ?_⟩, ⟨?_, ?_⟩⟩
  · simp [recordProfileVote, hp]
  · simp only [recordProfileVote, hp]
    rw [findById_updateCounters, hp]
    simp [hid]
  · simp [recordProfileVote, hp]
  · simp only [recordProfileVote, hp]
    rw [findById_updateCounters, hp]
    simp [hid]

/-- Witness for C7: a chad then an unknown-type then a jeet vote on a profile
with counters 1/2 leave a stored profile with counters at least 1/2, and a
single chad vote answers counts 2/2 at percentages 50/50. -/
theorem profile_vote_counters_monotone_witness :
    (∃ q, findById 1 (runProfileVotes [(1, "chad"), (1, "zap"), (1, "jeet")]
        { profiles := [⟨1, 0, 0, 0, 0, 1, 2, []⟩], votes := [] }).profiles =
        some q ∧ 1 ≤ q.chadVotes ∧ 2 ≤ q.jeetVotes) ∧
    (recordProfileVote 1 "chad"
        { profiles := [⟨1, 0, 0, 0, 0, 1, 2, []⟩], votes := [] }).1 =
      .ok 2 2 50 50 := by
  have h := profile_vote_counters_monotone [(1, "chad"), (1, "zap"), (1, "jeet")]
    { profiles := [⟨1, 0, 0, 0, 0, 1, 2, []⟩], votes := [] }
    1 ⟨1, 0, 0, 0, 0, 1, 2, []⟩ (by decide)
  exact ⟨h.1, h.2.1.1.trans (by decide)⟩

/-- C10: a profile vote whose voteType is neither 'chad' nor 'jeet' on an
existing profile does not fail: the handler succeeds, both counters are
unchanged in the response and in the store, and the percentages are computed
from the unchanged counts. -/
theorem profile_vote_unknown_type_noop (pid : Nat) (vt : String)
    (s : ServerState) (p : Profile)
    (hp : findById pid s.profiles = some p)
    (hc : vt ≠ "chad") (hj : vt ≠ "jeet") :
    (recordProfileVote pid vt s).1 =
      .ok p.chadVotes p.jeetVotes
        (percentages p.chadVotes p.jeetVotes).1
        (percentages p.chadVotes p.jeetVotes).2 ∧
    findById pid ((recordProfileVote pid vt s).2).profiles = some p := by
  have hid := findById_id hp
  constructor
  · simp [recordProfileVote, hp, hc, hj]
  · simp only [recordProfileVote, hp, hc, hj, if_false, if_neg]
    rw [findById_updateProfile pid pid
      (fun q => { q with chadVotes := p.chadVotes, jeetVotes := p.jeetVotes })
      (fun q => rfl), hp]
    simp [hid]
    rw [← hid]

/-- Witness for C10: voteType 'supervote' on a profile with counters 4/6
answers the unchanged counts with percentages 40/60 and leaves the stored
profile untouched. -/
theorem profile_vote_unknown_type_noop_witness :
    (recordProfileVote 1 "supervote"
        { profiles := [⟨1, 0, 0, 0, 0, 4, 6, []⟩], votes := [] }).1 =
      .ok 4 6 40 60 ∧
    findById 1 ((recordProfileVote 1 "supervote"
        { profiles := [⟨1, 0, 0, 0, 0, 4, 6, []⟩], votes := [] }).2).profiles =
      some ⟨1, 0, 0, 0, 0, 4, 6, []⟩ := by
  have h := profile_vote_unknown_type_noop 1 "supervote"
    { profiles := [⟨1, 0, 0, 0, 0, 4, 6, []⟩], votes := [] }
    ⟨1, 0, 0, 0, 0, 4, 6, []⟩ (by decide) (by decide) (by decide)
  exact ⟨h.1.trans (by decide), h.2⟩

/-- A battle call whose duplicate check fires answers the duplicate error. -/
lemma recordBattleVote_dup (V A B t : Nat) (s : ServerState)
    (hd : dedupHit V A B t s.votes = true) :
    (recordBattleVote V A B t s).1 = .duplicate := by
  simp [recordBattleVote, hd]

/-- C2: after a successful battle vote by voter V on pair (A, B) at time t,
a second battle vote by the same voter within the 60-second window — in the
same order or the reversed order — is rejected as a duplicate. -/
theorem battle_vote_dedup_window (V A B t t' : Nat) (s : ServerState)
    (h1 : ((recordBattleVote V A B t s).1).isOk = true)
    (hord : t ≤ t') (hwin : t' - t < 60000) :
    (recordBattleVote V B A t' ((recordBattleVote V A B t s).2)).1 =
      .duplicate ∧
    (recordBattleVote V A B t' ((recordBattleVote V A B t s).2)).1 =
      .duplicate := by
  have hd := recordBattleVote_isOk_no_dup V A B t s h1
  have hv := recordBattleVote_votes_append V A B t s hd
  have hmem : (⟨V, A, B, t⟩ : VoteRec) ∈ ((recordBattleVote V A B t s).2).votes := by
    rw [hv]
    simp
  have ht : t' - 60000 ≤ t := by omega
  constructor
  · exact recordBattleVote_dup V B A t' _
      (dedupHit_of_mem V B A t' _ _ hmem rfl (Or.inr ⟨rfl, rfl⟩) ht)
  · exact recordBattleVote_dup V A B t' _
      (dedupHit_of_mem V A B t' _ _ hmem rfl (Or.inl ⟨rfl, rfl⟩) ht)

/-- Witness for C2: voter 9 votes 1-beats-2 at t=1000000 and again, reversed,
at t=1000005; the second call is rejected as a duplicate. -/
theorem battle_vote_dedup_window_witness :
    (recordBattleVote 9 2 1 1000005
      ((recordBattleVote 9 1 2 1000000
        { profiles := [⟨1, 0, 0, 0, 0, 0, 0, []⟩, ⟨2, 0, 0, 0, 0, 0, 0, []⟩],
          votes := [] }).2)).1 = .duplicate ∧
    (recordBattleVote 9 1 2 1000005
      ((recordBattleVote 9 1 2 1000000
        { profiles := [⟨1, 0, 0, 0, 0, 0, 0, []⟩, ⟨2, 0, 0, 0, 0, 0, 0, []⟩],
          votes := [] }).2)).1 = .duplicate :=
  battle_vote_dedup_window 9 1 2 1000000 1000005
    { profiles := [⟨1, 0, 0, 0, 0, 0, 0, []⟩, ⟨2, 0, 0, 0, 0, 0, 0, []⟩],
      votes := [] } (by decide) (by decide) (by decide)

/-- C3 (amended): a successful battle vote on distinct existing profiles
appends exactly one vote record, raises the winner's votes, score and
battleWins by one and the loser's battleLosses by one, and answers the updated
winner votes and score together with the loser's pre-update votes and score
(the response does not carry the loser's battleLosses). -/
theorem battle_vote_success_effects (V A B t : Nat) (s : ServerState)
    (w l : Profile) (hAB : A ≠ B)
    (hw : findById A s.profiles = some w)
    (hl : findById B s.profiles = some l)
    (hd : dedupHit V A B t s.votes = false) :
    (recordBattleVote V A B t s).1 =
      .ok A (w.votes + 1) (w.score + 1) B l.votes l.score ∧
    ((recordBattleVote V A B t s).2).votes = s.votes ++ [⟨V, A, B, t⟩] ∧
    findById A ((recordBattleVote V A B t s).2).profiles =
      some { w with votes := w.votes + 1, score := w.score + 1,
                    battleWins := w.battleWins + 1,
                    votesHistory := w.votesHistory ++ [(V, t)] } ∧
    findById B ((recordBattleVote V A B t s).2).profiles =
      some { l with battleLosses := l.battleLosses + 1 } := by
  have hwid := findById_id hw
  have hlid := findById_id hl
  have hBA : B ≠ A := fun h => hAB h.symm
  refine ⟨?_, recordBattleVote_votes_append V A B t s hd, ?_, ?_⟩
  · simp [recordBattleVote, hd, battleFinish, hw, hl]
  · simp only [recordBattleVote, hd, Bool.false_eq_true, if_false,
      battleFinish, hw, hl]
    rw [findById_updateProfile A B (loserSaveFields l) (fun _ => rfl),
      findById_updateProfile A A (winnerSaveFields w V t) (fun _ => rfl), hw]
    simp [winnerSaveFields, loserSaveFields, hwid, hAB]
  · simp only [recordBattleVote, hd, Bool.false_eq_true, if_false,
      battleFinish, hw, hl]
    rw [findById_updateProfile B B (loserSaveFields l) (fun _ => rfl),
      findById_updateProfile B A (winnerSaveFields w V t) (fun _ => rfl), hl]
    simp [winnerSaveFields, loserSaveFields, hlid, hBA]

/-- Witness for C3's amended statement at a concrete state: profile 10 (7
votes, 7 score) beats profile 20 (2 losses so far). -/
theorem battle_vote_success_effects_witness :
    (recordBattleVote 1 10 20 1000
      { profiles := [⟨10, 7, 7, 0, 0, 0, 0, []⟩, ⟨20, 5, 6, 0, 2, 0, 0, []⟩],
        votes := [] }).1 = .ok 10 8 8 20 5 6 ∧
    ((recordBattleVote 1 10 20 1000
      { profiles := [⟨10, 7, 7, 0, 0, 0, 0, []⟩, ⟨20, 5, 6, 0, 2, 0, 0, []⟩],
        votes := [] }).2).votes = [⟨1, 10, 20, 1000⟩] := by
  have h := battle_vote_success_effects 1 10 20 1000
    { profiles := [⟨10, 7, 7, 0, 0, 0, 0, []⟩, ⟨20, 5, 6, 0, 2, 0, 0, []⟩],
      votes := [] }
    ⟨10, 7, 7, 0, 0, 0, 0, []⟩ ⟨20, 5, 6, 0, 2, 0, 0, []⟩
    (by decide) (by decide) (by decide) (by decide)
  exact ⟨h.1, h.2.1⟩

/-- Counterexample to C3 as stated: after the same successful call the loser's
stored battleLosses is 3, yet no numeric field of the response equals 3 — the
response carries the loser's votes and score, never its battleLosses. -/
theorem battle_vote_response_without_losses :
    ((recordBattleVote 1 10 20 1000
      { profiles := [⟨10, 7, 7, 0, 0, 0, 0, []⟩, ⟨20, 5, 6, 0, 2, 0, 0, []⟩],
        votes := [] }).1).numFields = [10, 8, 8, 20, 5, 6] ∧
    (findById 20 ((recordBattleVote 1 10 20 1000
      { profiles := [⟨10, 7, 7, 0, 0, 0, 0, []⟩, ⟨20, 5, 6, 0, 2, 0, 0, []⟩],
        votes := [] }).2).profiles).map Profile.battleLosses = some 3 ∧
    (3 : Nat) ∉ ((recordBattleVote 1 10 20 1000
      { profiles := [⟨10, 7, 7, 0, 0, 0, 0, []⟩, ⟨20, 5, 6, 0, 2, 0, 0, []⟩],
        votes := [] }).1).numFields := by decide

/-- C4 (amended): the handler has no winnerId = loserId rejection. A battle
vote naming the same existing profile as winner and loser succeeds whenever
the duplicate check passes: one record with winnerId = loserId is appended and
the profile's votes, score, battleWins and battleLosses all rise by one. -/
theorem battle_vote_same_profile (V A t : Nat) (s : ServerState) (a : Profile)
    (ha : findById A s.profiles = some a)
    (hd : dedupHit V A A t s.votes = false) :
    (recordBattleVote V A A t s).1 =
      .ok A (a.votes + 1) (a.score + 1) A a.votes a.score ∧
    ((recordBattleVote V A A t s).2).votes = s.votes ++ [⟨V, A, A, t⟩] ∧
    findById A ((recordBattleVote V A A t s).2).profiles =
      some { a with votes := a.votes + 1, score := a.score + 1,
                    battleWins := a.battleWins + 1,
                    battleLosses := a.battleLosses + 1,
                    votesHistory := a.votesHistory ++ [(V, t)] } := by
  have haid := findById_id ha
  refine ⟨?_, recordBattleVote_votes_append V A A t s hd, ?_⟩
  · simp [recordBattleVote, hd, battleFinish, ha]
  · simp only [recordBattleVote, hd, Bool.false_eq_true, if_false,
      battleFinish, ha]
    rw [findById_updateProfile A A (loserSaveFields a) (fun _ => rfl),
      findById_updateProfile A A (winnerSaveFields a V t) (fun _ => rfl), ha]
    simp [winnerSaveFields, loserSaveFields, haid]

/-- Witness for C4's amended statement: voter 7 votes profile 1 against
itself; the call succeeds and every counter of profile 1 rises by one. -/
theorem battle_vote_same_profile_witness :
    (recordBattleVote 7 1 1 500
      { profiles := [⟨1, 4, 4, 2, 2, 0, 0, []⟩], votes := [] }).1 =
      .ok 1 5 5 1 4 4 ∧
    findById 1 ((recordBattleVote 7 1 1 500
      { profiles := [⟨1, 4, 4, 2, 2, 0, 0, []⟩], votes := [] }).2).profiles =
      some ⟨1, 5, 5, 3, 3, 0, 0, [(7, 500)]⟩ := by
  have h := battle_vote_same_profile 7 1 500
    { profiles := [⟨1, 4, 4, 2, 2, 0, 0, []⟩], votes := [] }
    ⟨1, 4, 4, 2, 2, 0, 0, []⟩ (by decide) (by decide)
  exact ⟨h.1, h.2.2⟩

/-- Counterexample to C4 as stated: a battle vote with winnerId = loserId on
an existing profile does not fail — it answers 200, appends a vote record and
changes the profile's counters. -/
theorem battle_vote_same_profile_succeeds :
    ((recordBattleVote 7 1 1 500
      { profiles := [⟨1, 0, 0, 0, 0, 0, 0, []⟩], votes := [] }).1).isOk =
      true ∧
    ((recordBattleVote 7 1 1 500
      { profiles := [⟨1, 0, 0, 0, 0, 0, 0, []⟩], votes := [] }).2).votes =
      [⟨7, 1, 1, 500⟩] ∧
    (findById 1 ((recordBattleVote 7 1 1 500
      { profiles := [⟨1, 0, 0, 0, 0, 0, 0, []⟩], votes := [] }).2).profiles).map
        Profile.votes = some 1 := by decide

/-- C5: when the winner id references no stored profile, the handler still
appends the vote record first, then skips the counter updates and crashes on
the null dereference — a generic 500 response with an orphan vote record left
behind, not a ProfileNotFound rejection with unchanged state. -/
theorem battle_vote_missing_profile_orphan_record :
    (recordBattleVote 7 99 1 100
      { profiles := [⟨1, 0, 0, 0, 0, 0, 0, []⟩], votes := [] }).1 =
      .serverError ∧
    ((recordBattleVote 7 99 1 100
      { profiles := [⟨1, 0, 0, 0, 0, 0, 0, []⟩], votes := [] }).2).votes =
      [⟨7, 99, 1, 100⟩] ∧
    ((recordBattleVote 7 99 1 100
      { profiles := [⟨1, 0, 0, 0, 0, 0, 0, []⟩], votes := [] }).2).profiles =
      [⟨1, 0, 0, 0, 0, 0, 0, []⟩] := by decide

/-- The leaderboard order is transitive. -/
lemma lbLE_trans {a b c : Profile} (hab : lbLE a b = true)
    (hbc : lbLE b c = true) : lbLE a c = true := by
  simp only [lbLE, Bool.or_eq_true, Bool.and_eq_true, decide_eq_true_eq,
    beq_iff_eq] at *
  omega

/-- The leaderboard order is total. -/
lemma lbLE_total (a b : Profile) : lbLE a b = true ∨ lbLE b a = true := by
  simp only [lbLE, Bool.or_eq_true, Bool.and_eq_true, decide_eq_true_eq,
    beq_iff_eq]
  omega

/-- Membership through ordered insertion. -/
lemma mem_insertLB {q p : Profile} {l : List Profile} :
    q ∈ insertLB p l ↔ q = p ∨ q ∈ l := by
  induction l with
  | nil => simp [insertLB]
  | cons r t ih =>
    simp only [insertLB]
    split
    · simp [List.mem_cons]
    · simp only [List.mem_cons, ih]
      tauto

/-- Ordered insertion preserves sortedness for the leaderboard order. -/
lemma pairwise_insertLB {p : Profile} {l : List Profile}
    (h : l.Pairwise (fun a b => lbLE a b = true)) :
    (insertLB p l).Pairwise (fun a b => lbLE a b = true) := by
  induction l with
  | nil => simp [insertLB]
  | cons q t ih =>
    simp only [insertLB]
    split
    · rename_i hpq
      refine List.pairwise_cons.mpr ⟨?_, h⟩
      intro r hr
      rcases List.mem_cons.mp hr with rfl | hrt
      · exact hpq
      · exact lbLE_trans hpq ((List.pairwise_cons.mp h).1 r hrt)
    · rename_i hpq
      have hqp : lbLE q p = true := by
        rcases lbLE_total p q with h1 | h1
        · exact absurd h1 hpq
        · exact h1
      obtain ⟨hq, ht⟩ := List.pairwise_cons.mp h
      refine List.pairwise_cons.mpr ⟨?_, ih ht⟩
      intro r hr
      rcases mem_insertLB.mp hr with rfl | hrt
      · exact hqp
      · exact hq r hrt

/-- The stable sort is sorted for the leaderboard order. -/
lemma sortLB_pairwise (l : List Profile) :
    (sortLB l).Pairwise (fun a b => lbLE a b = true) := by
  induction l with
  | nil => simp [sortLB]
  | cons p t ih => simpa [sortLB] using pairwise_insertLB ih

/-- The stable sort is a permutation membership-wise. -/
lemma mem_sortLB {q : Profile} {l : List Profile} :
    q ∈ sortLB l ↔ q ∈ l := by
  induction l with
  | nil => simp [sortLB]
  | cons p t ih =>
    simp only [sortLB, List.foldr_cons] at ih ⊢
    rw [mem_insertLB, ih, List.mem_cons]

/-- C6 (amended): the leaderboard returns at most `limit` profiles, sorted by
votes descending then score descending (equal documents keeping stored
order), each a stored profile matching the period filter — for day, week and
month a `votesHistory` entry inside the window, while the 'all' period keeps
every profile, vote records or not; when no profile matches, the result is
the empty sequence. -/
theorem leaderboard_window_and_order (period : String) (limit now : Nat)
    (s : ServerState) :
    (getLeaderboard period limit now s).length ≤ limit ∧
    (getLeaderboard period limit now s).Pairwise
      (fun a b => lbLE a b = true) ∧
    (∀ p ∈ getLeaderboard period limit now s,
       p ∈ s.profiles ∧ qualifies period now p = true) ∧
    ((∀ p ∈ s.profiles, qualifies period now p = false) →
       getLeaderboard period limit now s = []) := by
  refine ⟨?_, ?_, ?_, ?_⟩
  · simp only [getLeaderboard]
    exact List.length_take_le _ _
  · simp only [getLeaderboard]
    exact List.Pairwise.sublist (List.take_sublist _ _) (sortLB_pairwise _)
  · intro p hp
    simp only [getLeaderboard] at hp
    have h2 : p ∈ s.profiles.filter (qualifies period now) :=
      mem_sortLB.mp (List.mem_of_mem_take hp)
    exact ⟨(List.mem_filter.mp h2).1, (List.mem_filter.mp h2).2⟩
  · intro hall
    have hnil : s.profiles.filter (qualifies period now) = [] := by
      rw [List.filter_eq_nil_iff]
      intro a ha
      simp [hall a ha]
    simp [getLeaderboard, hnil, sortLB]

/-- Witness for C6's amended statement: a profile with no vote history is
filtered out of the day leaderboard, leaving the empty sequence. -/
theorem leaderboard_window_and_order_witness :
    getLeaderboard "day" 10 1000000
      { profiles := [⟨1, 5, 5, 0, 0, 0, 0, []⟩], votes := [] } = [] :=
  (leaderboard_window_and_order "day" 10 1000000
    { profiles := [⟨1, 5, 5, 0, 0, 0, 0, []⟩], votes := [] }).2.2.2 (by decide)

/-- Counterexample to C6 as stated: for period 'all' the code applies no
filter, so a profile with no vote record at all is returned; and for equal
votes and score the result keeps stored order — ids [5, 3] — rather than the
claimed ascending-id tie-break. -/
theorem leaderboard_counterexample :
    getLeaderboard "all" 10 0
      { profiles := [⟨1, 5, 5, 0, 0, 0, 0, []⟩], votes := [] } =
      [⟨1, 5, 5, 0, 0, 0, 0, []⟩] ∧
    (⟨1, 5, 5, 0, 0, 0, 0, []⟩ : Profile).votesHistory = [] ∧
    (getLeaderboard "day" 10 86400000
      { profiles := [⟨5, 3, 3, 0, 0, 0, 0, [(1, 86400000)]⟩,
                     ⟨3, 3, 3, 0, 0, 0, 0, [(1, 86400000)]⟩],
        votes := [] }).map Profile.id = [5, 3] := by decide

/-- C8 (amended): the random-pair path adds no distinctness guarantee: the
endpoint returns the database sample unchanged and the client takes its first
two elements, so the pair is exactly the sample's first two documents (each a
member of the profile set); the ids are distinct exactly when those two
sampled documents carry distinct ids. -/
theorem random_pair_passthrough (ps out : List Profile) (a b : Profile)
    (hadm : sampleAdmissible ps 2 out)
    (hpair : loadNewProfilesPair out = some (a, b)) :
    a ∈ ps ∧ b ∈ ps ∧ out.head? = some a ∧ out.tail.head? = some b := by
  cases out with
  | nil => simp [loadNewProfilesPair] at hpair
  | cons x rest =>
    cases rest with
    | nil => simp [loadNewProfilesPair] at hpair
    | cons y rest2 =>
      simp only [loadNewProfilesPair] at hpair
      have hxy := Option.some.inj hpair
      obtain ⟨rfl, rfl⟩ : x = a ∧ y = b :=
        ⟨congrArg Prod.fst hxy, congrArg Prod.snd hxy⟩
      exact ⟨hadm.2 _ (by simp), hadm.2 _ (by simp), rfl, rfl⟩

/-- Witness for C8's amended statement: a sample listing the two stored
profiles in reversed order yields exactly that pair. -/
theorem random_pair_passthrough_witness :
    (⟨2, 0, 0, 0, 0, 0, 0, []⟩ : Profile) ∈
      [(⟨1, 0, 0, 0, 0, 0, 0, []⟩ : Profile), ⟨2, 0, 0, 0, 0, 0, 0, []⟩] ∧
    (⟨1, 0, 0, 0, 0, 0, 0, []⟩ : Profile) ∈
      [(⟨1, 0, 0, 0, 0, 0, 0, []⟩ : Profile), ⟨2, 0, 0, 0, 0, 0, 0, []⟩] ∧
    ([(⟨2, 0, 0, 0, 0, 0, 0, []⟩ : Profile),
      ⟨1, 0, 0, 0, 0, 0, 0, []⟩]).head? = some ⟨2, 0, 0, 0, 0, 0, 0, []⟩ ∧
    ([(⟨2, 0, 0, 0, 0, 0, 0, []⟩ : Profile),
      ⟨1, 0, 0, 0, 0, 0, 0, []⟩]).tail.head? = some ⟨1, 0, 0, 0, 0, 0, 0, []⟩ :=
  random_pair_passthrough
    [⟨1, 0, 0, 0, 0, 0, 0, []⟩, ⟨2, 0, 0, 0, 0, 0, 0, []⟩]
    [⟨2, 0, 0, 0, 0, 0, 0, []⟩, ⟨1, 0, 0, 0, 0, 0, 0, []⟩]
    ⟨2, 0, 0, 0, 0, 0, 0, []⟩ ⟨1, 0, 0, 0, 0, 0, 0, []⟩
    ⟨by decide, by decide⟩ rfl

/-- Counterexample to C8 as stated: a sample repeating the same stored
document is admissible for the documented `$sample` semantics, and the client
then returns a pair whose two components carry the same profile id — nothing
in the code enforces distinctness. -/
theorem random_pair_duplicate_possible :
    sampleAdmissible
      [(⟨1, 0, 0, 0, 0, 0, 0, []⟩ : Profile), ⟨2, 0, 0, 0, 0, 0, 0, []⟩] 2
      [⟨1, 0, 0, 0, 0, 0, 0, []⟩, ⟨1, 0, 0, 0, 0, 0, 0, []⟩] ∧
    loadNewProfilesPair
      [(⟨1, 0, 0, 0, 0, 0, 0, []⟩ : Profile), ⟨1, 0, 0, 0, 0, 0, 0, []⟩] =
      some (⟨1, 0, 0, 0, 0, 0, 0, []⟩, ⟨1, 0, 0, 0, 0, 0, 0, []⟩) ∧
    (loadNewProfilesPair
      [(⟨1, 0, 0, 0, 0, 0, 0, []⟩ : Profile), ⟨1, 0, 0, 0, 0, 0, 0, []⟩]).map
      (fun c => c.1.id == c.2.id) = some true :=
  ⟨⟨by decide, by decide⟩, by decide, by decide⟩

/-- C9: the winner counter update is an in-memory read-modify-write
(`winner.votes += 1; winner.save()`), not a storage-level atomic increment:
under the legal schedule in which two requests by different voters for the
same winner both read the profile documents before either saves, both calls
answer 200 yet the winner's stored votes rise by one, not two — one increment
is lost.  Running the same two calls sequentially ends at plus two. -/
theorem battle_race_lost_update :
    ((battleRace 7 8 1 2 100 200
      { profiles := [⟨1, 5, 5, 0, 0, 0, 0, []⟩, ⟨2, 0, 0, 0, 0, 0, 0, []⟩],
        votes := [] }).1.1).isOk = true ∧
    ((battleRace 7 8 1 2 100 200
      { profiles := [⟨1, 5, 5, 0, 0, 0, 0, []⟩, ⟨2, 0, 0, 0, 0, 0, 0, []⟩],
        votes := [] }).1.2).isOk = true ∧
    (findById 1 ((battleRace 7 8 1 2 100 200
      { profiles := [⟨1, 5, 5, 0, 0, 0, 0, []⟩, ⟨2, 0, 0, 0, 0, 0, 0, []⟩],
        votes := [] }).2).profiles).map Profile.votes = some 6 ∧
    (findById 1 ((recordBattleVote 8 1 2 200
      ((recordBattleVote 7 1 2 100
        { profiles := [⟨1, 5, 5, 0, 0, 0, 0, []⟩, ⟨2, 0, 0, 0, 0, 0, 0, []⟩],
          votes := [] }).2)).2).profiles).map Profile.votes = some 7 := by
  decide

end UKN
